import Mathlib

/-!
Verification of the Veeam Backup & Replication Home Assistant integration
(`custom_components/veeam_br`).  The data-handling core of
`__init__.py`'s `async_update_data` and of `sensor.py`'s `VeeamJobSensor`
is embedded shallowly: parsed JSON values become the inductive `Json`,
Python dictionaries become association lists, and the fallible update
cycle becomes an `Except` value.
-/

namespace VeeamBR

/-- Parsed JSON values, as produced by `json.loads`.  Python `None` is
`Json.null`; Python dictionaries are association lists of string keys. -/
inductive Json where
  | null
  | bool (b : Bool)
  | num (n : Int)
  | str (s : String)
  | arr (elems : List Json)
  | obj (fields : List (String × Json))

mutual

/-- Structural equality of JSON values (Python `==` on parsed JSON). -/
def Json.beq : Json → Json → Bool
  | .null, .null => true
  | .bool a, .bool b => a == b
  | .num a, .num b => a == b
  | .str a, .str b => a == b
  | .arr a, .arr b => Json.beqList a b
  | .obj a, .obj b => Json.beqFields a b
  | _, _ => false

/-- Elementwise equality of JSON arrays. -/
def Json.beqList : List Json → List Json → Bool
  | [], [] => true
  | x :: xs, y :: ys => Json.beq x y && Json.beqList xs ys
  | _, _ => false

/-- Elementwise equality of JSON objects (ordered association lists). -/
def Json.beqFields : List (String × Json) → List (String × Json) → Bool
  | [], [] => true
  | (k, v) :: xs, (l, w) :: ys => k == l && Json.beq v w && Json.beqFields xs ys
  | _, _ => false

end

mutual

theorem Json.beq_iff : ∀ a b : Json, Json.beq a b = true ↔ a = b
  | .null, .null => by simp [Json.beq]
  | .null, .bool _ | .null, .num _ | .null, .str _ | .null, .arr _ | .null, .obj _ =>
      by simp [Json.beq]
  | .bool _, .null | .bool _, .num _ | .bool _, .str _ | .bool _, .arr _ | .bool _, .obj _ =>
      by simp [Json.beq]
  | .num _, .null | .num _, .bool _ | .num _, .str _ | .num _, .arr _ | .num _, .obj _ =>
      by simp [Json.beq]
  | .str _, .null | .str _, .bool _ | .str _, .num _ | .str _, .arr _ | .str _, .obj _ =>
      by simp [Json.beq]
  | .arr _, .null | .arr _, .bool _ | .arr _, .num _ | .arr _, .str _ | .arr _, .obj _ =>
      by simp [Json.beq]
  | .obj _, .null | .obj _, .bool _ | .obj _, .num _ | .obj _, .str _ | .obj _, .arr _ =>
      by simp [Json.beq]
  | .bool a, .bool b => by simp [Json.beq]
  | .num a, .num b => by simp [Json.beq]
  | .str a, .str b => by simp [Json.beq]
  | .arr a, .arr b => by
      simpa [Json.beq] using Json.beqList_iff a b
  | .obj a, .obj b => by
      simpa [Json.beq] using Json.beqFields_iff a b

theorem Json.beqList_iff : ∀ xs ys : List Json, Json.beqList xs ys = true ↔ xs = ys
  | [], [] => by simp [Json.beqList]
  | [], _ :: _ => by simp [Json.beqList]
  | _ :: _, [] => by simp [Json.beqList]
  | x :: xs, y :: ys => by
      simp [Json.beqList, Json.beq_iff x y, Json.beqList_iff xs ys]

theorem Json.beqFields_iff :
    ∀ xs ys : List (String × Json), Json.beqFields xs ys = true ↔ xs = ys
  | [], [] => by simp [Json.beqFields]
  | [], _ :: _ => by simp [Json.beqFields]
  | _ :: _, [] => by simp [Json.beqFields]
  | (k, v) :: xs, (l, w) :: ys => by
      simp [Json.beqFields, Json.beq_iff v w, Json.beqFields_iff xs ys, Prod.ext_iff,
        and_assoc]

end

instance : DecidableEq Json :=
  fun a b => decidable_of_iff (Json.beq a b = true) (Json.beq_iff a b)

/-- Dictionary lookup: Python `d[k]` presence test.  Returns the value of
the first binding of `key`, as a Python `dict` holds each key once. -/
def lookupJ : List (String × Json) → String → Option Json
  | [], _ => none
  | (k, v) :: rest, key => if k = key then some v else lookupJ rest key

/-- Python `d.get(key, default)`: the stored value when the key is present
(even when that value is `null`), otherwise the default. -/
def getD (d : List (String × Json)) (key : String) (dflt : Json) : Json :=
  (lookupJ d key).getD dflt

/-- A normalized job record.  `async_update_data` builds each record as a
dictionary literal with these seven keys, so the embedding keeps the same
association-list shape. -/
abbrev JobRecord := List (String × Json)

/-- The dictionary literal built for each raw job inside the `for job in
jobs_data` loop of `async_update_data` (`__init__.py` lines 100-110). -/
def normJob (job : List (String × Json)) : JobRecord :=
  [("id", getD job "id" Json.null),
   ("name", getD job "name" (Json.str "Unknown")),
   ("status", getD job "status" (Json.str "unknown")),
   ("type", getD job "type" Json.null),
   ("last_run", getD job "lastRun" Json.null),
   ("next_run", getD job "nextRun" Json.null),
   ("last_result", getD job "lastResult" Json.null)]

/-- Python `isinstance(job, dict)` paired with access to the fields. -/
def asObj : Json → Option (List (String × Json))
  | .obj fields => some fields
  | _ => none

/-- The `for job in jobs_data` loop of `async_update_data`: elements that
are not dictionaries hit `continue`; every other element is appended as
`normJob job` (`__init__.py` lines 97-113). -/
def normalizeJobs : List Json → List JobRecord
  | [] => []
  | j :: rest =>
    match j with
    | .obj fields => normJob fields :: normalizeJobs rest
    | _ => normalizeJobs rest

/-- Failure conditions that terminate an update cycle.  In the source each
is an `UpdateFailed` (or an exception wrapped into one by the outer
`except Exception` handler); the constructor records which message. -/
inductive UpdateError where
  | noValidToken       -- "Failed to obtain valid access token"
  | noAuthClient       -- "No authenticated client available"
  | noneResponse       -- "API returned None response"
  | badStatus (code : Nat)  -- "API returned status {code}"
  | parseError         -- "Failed to parse API response: ..."
  | attributeError     -- AttributeError from `data.get` on a non-dict body
  deriving DecidableEq

/-- Lines 91-113 of `async_update_data`, from `data = json.loads(...)`
onward.  When the parsed body is not a dictionary, `data.get("data", [])`
raises `AttributeError`, which the outer `except Exception` handler turns
into an `UpdateFailed`; that path is the `attributeError` branch here. -/
def extractJobs : Json → Except UpdateError (List JobRecord)
  | .obj fields =>
    match getD fields "data" (Json.arr []) with
    | .arr jobsData => .ok (normalizeJobs jobsData)
    | _ => .ok []
  | _ => .error .attributeError

/-- An HTTP response as seen by `async_update_data`: a status code and a
body.  The body is `none` when `json.loads(response.text)` would fail and
`some v` when it parses to the JSON value `v`. -/
structure Response where
  statusCode : Nat
  body : Option Json

/-- The whole `async_update_data` cycle (`__init__.py` lines 52-116).
`tokenOk` is the result of `token_manager.ensure_valid_token`, `clientOk`
whether `get_authenticated_client` returned a client, and `fetch` the
jobs request (`none` models `response is None`).  The second component of
the result records whether the fetch request was issued at all. -/
def updateCycle (tokenOk : Bool) (clientOk : Bool) (fetch : Unit → Option Response) :
    Except UpdateError (List JobRecord) × Bool :=
  if !tokenOk then (.error .noValidToken, false)
  else if !clientOk then (.error .noAuthClient, false)
  else
    match fetch () with
    | none => (.error .noneResponse, true)
    | some r =>
      if r.statusCode ≠ 200 then (.error (.badStatus r.statusCode), true)
      else
        match r.body with
        | none => (.error .parseError, true)
        | some data => (extractJobs data, true)

/-- Modelled from the spec: the host framework's update coordinator (not
part of this repository's sources) publishes the cycle's result.  On
success the snapshot is replaced atomically with the new job list; on
failure the previous snapshot is left unchanged and the error is surfaced
as a last-error condition. -/
def publishCycle (prev : Option (List JobRecord))
    (result : Except UpdateError (List JobRecord)) :
    Option (List JobRecord) × Option UpdateError :=
  match result with
  | .ok jobs => (some jobs, none)
  | .error e => (prev, some e)

/-- The sensor's binding identifier, `VeeamJobSensor.__init__`
(`sensor.py` line 42): `job_data.get("id", job_data.get("name"))`.  The
same expression recomputes `job_id` for each record inside `native_value`
and `extra_state_attributes`. -/
def jobIdOf (jobData : List (String × Json)) : Json :=
  getD jobData "id" (getD jobData "name" Json.null)

/-- Embeds `VeeamJobSensor.native_value` (`sensor.py` lines 49-61): `None` when
the snapshot is falsy, otherwise the `status` of the first record whose
recomputed `job_id` equals the sensor's, else `None`. -/
def native_value (data : List JobRecord) (jobId : Json) : Option Json :=
  if data = [] then none
  else
    match data.find? (fun job => Json.beq (jobIdOf job) jobId) with
    | some job => some (getD job "status" (Json.str "unknown"))
    | none => none

/-- Embeds `VeeamJobSensor.extra_state_attributes` (`sensor.py` lines 63-82):
an empty dictionary when the snapshot is falsy or the job is absent,
otherwise the six-key attribute dictionary of the matching record. -/
def extra_state_attributes (data : List JobRecord) (jobId : Json) :
    List (String × Json) :=
  if data = [] then []
  else
    match data.find? (fun job => Json.beq (jobIdOf job) jobId) with
    | some job =>
      [("job_id", getD job "id" Json.null),
       ("job_name", getD job "name" Json.null),
       ("job_type", getD job "type" Json.null),
       ("last_run", getD job "last_run" Json.null),
       ("next_run", getD job "next_run" Json.null),
       ("last_result", getD job "last_result" Json.null)]
    | none => []

/-- Embeds `VeeamJobSensor.icon` (`sensor.py` lines 84-96) applied to the value
of `native_value` (a string or Python `None`, here `Option Json`). -/
def iconOf (state : Option Json) : String :=
  if state = some (Json.str "running") then "mdi:backup-restore"
  else if state = some (Json.str "success") then "mdi:check-circle"
  else if state = some (Json.str "warning") then "mdi:alert"
  else if state = some (Json.str "failed") then "mdi:close-circle"
  else "mdi:cloud-sync"

/-- Modelled from the spec: the state of the host framework's update
coordinator (its implementation is not part of this repository's
sources).  `busy` is true while a refresh cycle is in flight, `fetches`
counts the network fetches issued so far. -/
structure CoordState where
  busy : Bool
  fetches : Nat
  deriving DecidableEq

/-- Events driving the coordinator: a refresh trigger arriving (timer
tick or explicit request) and the in-flight cycle completing. -/
inductive CoordEvent where
  | tick
  | finish
  deriving DecidableEq

/-- Modelled from the spec: at most one refresh cycle runs at a time; a
trigger arriving while a cycle is already in flight is dropped, not
queued; an idle trigger starts a cycle and issues one fetch. -/
def coordStep (s : CoordState) : CoordEvent → CoordState
  | .tick => if s.busy then s else ⟨true, s.fetches + 1⟩
  | .finish => ⟨false, s.fetches⟩

/-- Process a sequence of coordinator events in arrival order. -/
def coordRun : CoordState → List CoordEvent → CoordState
  | s, [] => s
  | s, e :: es => coordRun (coordStep s e) es

/-! Helper lemmas shared by the claim theorems. -/

theorem getD_of_lookup_none {d : List (String × Json)} {key : String} {dflt : Json}
    (h : lookupJ d key = none) : getD d key dflt = dflt := by
  simp [getD, h]

theorem getD_of_lookup_some {d : List (String × Json)} {key : String} {dflt v : Json}
    (h : lookupJ d key = some v) : getD d key dflt = v := by
  simp [getD, h]

theorem normalizeJobs_eq_filterMap (jobsData : List Json) :
    normalizeJobs jobsData = (jobsData.filterMap asObj).map normJob := by
  induction jobsData with
  | nil => rfl
  | cons j rest ih => cases j <;> simp [normalizeJobs, asObj, ih]

theorem jobIdOf_normJob (job : List (String × Json)) :
    jobIdOf (normJob job) = getD job "id" Json.null := by
  simp [jobIdOf, normJob, getD, lookupJ]

/-! Theorems settling the claims. -/

/-- Claim C1, counterexample: the parsed body `[]` (a JSON array, so the
top-level "data" key is missing) does not normalize to an empty list:
`data.get` raises `AttributeError`, so the cycle fails instead. -/
theorem c1_counterexample :
    extractJobs (Json.arr []) = .error .attributeError ∧
    extractJobs (Json.arr []) ≠ .ok ([] : List JobRecord) := by
  refine ⟨rfl, ?_⟩
  simp [extractJobs]

/-- Claim C1 (amended): for every parsed response body that is a JSON
object, if the top-level "data" key is missing or its value is not a
list, normalization returns an empty list and does not raise. -/
theorem c1_normalize_tolerates_missing_or_nonlist (fields : List (String × Json)) :
    (lookupJ fields "data" = none → extractJobs (Json.obj fields) = .ok []) ∧
    (∀ v : Json, lookupJ fields "data" = some v → (∀ l, v ≠ Json.arr l) →
      extractJobs (Json.obj fields) = .ok []) := by
  constructor
  · intro h
    simp [extractJobs, getD_of_lookup_none h, normalizeJobs]
  · intro v hv hna
    have hg : getD fields "data" (Json.arr []) = v := getD_of_lookup_some hv
    cases v with
    | arr l => exact absurd rfl (hna l)
    | null => simp [extractJobs, hg]
    | bool b => simp [extractJobs, hg]
    | num n => simp [extractJobs, hg]
    | str s => simp [extractJobs, hg]
    | obj o => simp [extractJobs, hg]

/-- Claim C1 witness: a body whose "data" value is the string "x"
normalizes to the empty list. -/
theorem c1_witness : extractJobs (Json.obj [("data", Json.str "x")]) = .ok [] :=
  (c1_normalize_tolerates_missing_or_nonlist [("data", Json.str "x")]).2
    (Json.str "x") (by decide) (fun l h => Json.noConfusion h)

/-- Claim C2: missing "name" defaults to "Unknown", missing "status" to
"unknown", missing type/lastRun/nextRun/lastResult to null, and the
payload `{"data":[{"id":"j1","name":"Daily","status":"success"}]}`
normalizes to exactly the one expected record. -/
theorem c2_field_defaults :
    (∀ job : List (String × Json), lookupJ job "name" = none →
      lookupJ (normJob job) "name" = some (Json.str "Unknown")) ∧
    (∀ job : List (String × Json), lookupJ job "status" = none →
      lookupJ (normJob job) "status" = some (Json.str "unknown")) ∧
    (∀ job : List (String × Json), lookupJ job "type" = none →
      lookupJ (normJob job) "type" = some Json.null) ∧
    (∀ job : List (String × Json), lookupJ job "lastRun" = none →
      lookupJ (normJob job) "last_run" = some Json.null) ∧
    (∀ job : List (String × Json), lookupJ job "nextRun" = none →
      lookupJ (normJob job) "next_run" = some Json.null) ∧
    (∀ job : List (String × Json), lookupJ job "lastResult" = none →
      lookupJ (normJob job) "last_result" = some Json.null) ∧
    extractJobs (Json.obj [("data", Json.arr [Json.obj [("id", Json.str "j1"),
        ("name", Json.str "Daily"), ("status", Json.str "success")]])]) =
      .ok [[("id", Json.str "j1"), ("name", Json.str "Daily"),
        ("status", Json.str "success"), ("type", Json.null), ("last_run", Json.null),
        ("next_run", Json.null), ("last_result", Json.null)]] := by
  refine ⟨?_, ?_, ?_, ?_, ?_, ?_, rfl⟩ <;>
    · intro job h
      simp [normJob, lookupJ, getD_of_lookup_none h]

/-- Claim C2 witness: the empty raw job gets the documented defaults. -/
theorem c2_witness : lookupJ (normJob []) "name" = some (Json.str "Unknown") :=
  c2_field_defaults.1 [] rfl

/-- Claim C3: non-dictionary payload elements are silently excluded (the
output is the dictionary elements, normalized, in input order) and the
output is never longer than the input list. -/
theorem c3_nondicts_excluded_order_kept (jobsData : List Json) :
    normalizeJobs jobsData = (jobsData.filterMap asObj).map normJob ∧
    (normalizeJobs jobsData).length ≤ jobsData.length := by
  refine ⟨normalizeJobs_eq_filterMap jobsData, ?_⟩
  rw [normalizeJobs_eq_filterMap, List.length_map]
  exact List.length_filterMap_le asObj jobsData

/-- Claim C4: when the token manager cannot supply a valid token the
cycle fails with the no-valid-token reason, and the jobs fetch is never
issued (second component false), whatever the client or fetch would do. -/
theorem c4_no_token_no_fetch (clientOk : Bool) (fetch : Unit → Option Response) :
    updateCycle false clientOk fetch = (.error .noValidToken, false) := rfl

/-- Claim C5: a fetch answering with any non-200 status (500 included)
fails the cycle with the bad-status reason, and publishing that failed
cycle leaves the previous snapshot unchanged while surfacing the error. -/
theorem c5_bad_status_keeps_snapshot (prev : Option (List JobRecord))
    (code : Nat) (hc : code ≠ 200) (body : Option Json) :
    (updateCycle true true (fun _ => some ⟨code, body⟩)).1 = .error (.badStatus code) ∧
    publishCycle prev (updateCycle true true (fun _ => some ⟨code, body⟩)).1 =
      (prev, some (.badStatus code)) := by
  have h1 : (updateCycle true true (fun _ => some ⟨code, body⟩)).1 =
      .error (.badStatus code) := by
    simp [updateCycle, hc]
  refine ⟨h1, ?_⟩
  rw [h1]
  rfl

/-- Claim C5 witness: a fetch answering status 500 with an empty body
fails the cycle and keeps the (here absent) previous snapshot. -/
theorem c5_witness :
    (updateCycle true true (fun _ => some ⟨500, none⟩)).1 = .error (.badStatus 500) ∧
    publishCycle none (updateCycle true true (fun _ => some ⟨500, none⟩)).1 =
      (none, some (.badStatus 500)) :=
  c5_bad_status_keeps_snapshot none 500 (by decide) none

/-- Claim C6: when no record of the current snapshot carries the
subscriber's identifier (in particular when the snapshot is empty), the
sensor's state is `None` and its attributes are the empty dictionary. -/
theorem c6_missing_job_reads_empty (data : List JobRecord) (jobId : Json)
    (h : ∀ job ∈ data, jobIdOf job ≠ jobId) :
    native_value data jobId = none ∧ extra_state_attributes data jobId = [] := by
  have hfind : data.find? (fun job => Json.beq (jobIdOf job) jobId) = none := by
    rw [List.find?_eq_none]
    intro job hj hb
    exact h job hj ((Json.beq_iff _ _).mp hb)
  constructor
  · unfold native_value
    split
    · rfl
    · rw [hfind]
  · unfold extra_state_attributes
    split
    · rfl
    · rw [hfind]

/-- Claim C6 witness: a snapshot holding only job "j1" yields the empty
state for a sensor bound to identifier "zz". -/
theorem c6_witness :
    native_value [normJob [("id", Json.str "j1")]] (Json.str "zz") = none ∧
    extra_state_attributes [normJob [("id", Json.str "j1")]] (Json.str "zz") = [] :=
  c6_missing_job_reads_empty [normJob [("id", Json.str "j1")]] (Json.str "zz")
    (by decide)

/-- Claim C7, counterexample: for a job with no upstream id the binding
identifier is null, not the job's name "Daily" — the normalized record
always carries an "id" key, so the name fallback never applies. -/
theorem c7_counterexample :
    jobIdOf (normJob [("name", Json.str "Daily")]) = Json.null ∧
    Json.null ≠ Json.str "Daily" := ⟨rfl, by decide⟩

/-- Claim C7 (amended): the binding identifier of a normalized record is
exactly the upstream job's "id" value (null when absent); it is a pure
function of the raw record, hence the same in every snapshot in which the
job appears with the same data, and the name fallback is never used. -/
theorem c7_identifier_is_upstream_id (job : List (String × Json)) :
    jobIdOf (normJob job) = getD job "id" Json.null :=
  jobIdOf_normJob job

/-- Claim C8: the icon mapping is a pure total function of the status:
running, success, warning and failed map to their icons and every other
state — unknown, any other string, a non-string, or an absent state —
maps to the cloud-sync fallback. -/
theorem c8_icon_mapping :
    iconOf (some (Json.str "running")) = "mdi:backup-restore" ∧
    iconOf (some (Json.str "success")) = "mdi:check-circle" ∧
    iconOf (some (Json.str "warning")) = "mdi:alert" ∧
    iconOf (some (Json.str "failed")) = "mdi:close-circle" ∧
    iconOf (some (Json.str "unknown")) = "mdi:cloud-sync" ∧
    ∀ s : Option Json, s ≠ some (Json.str "running") →
      s ≠ some (Json.str "success") → s ≠ some (Json.str "warning") →
      s ≠ some (Json.str "failed") → iconOf s = "mdi:cloud-sync" := by
  refine ⟨rfl, rfl, rfl, rfl, rfl, ?_⟩
  intro s h1 h2 h3 h4
  unfold iconOf
  rw [if_neg h1, if_neg h2, if_neg h3, if_neg h4]

/-- Claim C8 witness: an absent state (job not found) maps to the
cloud-sync fallback icon. -/
theorem c8_witness : iconOf none = "mdi:cloud-sync" :=
  c8_icon_mapping.2.2.2.2.2 none (by decide) (by decide) (by decide) (by decide)

/-- Claim C9, counterexample: a payload listing two jobs with the same id
"j1" normalizes to a snapshot whose identifiers are not unique — nothing
in the code enforces uniqueness. -/
theorem c9_counterexample :
    extractJobs (Json.obj [("data", Json.arr [Json.obj [("id", Json.str "j1")],
        Json.obj [("id", Json.str "j1")]])]) =
      .ok [normJob [("id", Json.str "j1")], normJob [("id", Json.str "j1")]] ∧
    ¬ (([normJob [("id", Json.str "j1")],
        normJob [("id", Json.str "j1")]].map jobIdOf).Nodup) :=
  ⟨rfl, by decide⟩

/-- Claim C9 (amended): snapshot identifiers are unique whenever the
upstream ids of the payload's dictionary elements are pairwise distinct;
normalization itself introduces no duplicates but does not enforce
uniqueness against a payload that repeats an id. -/
theorem c9_unique_when_upstream_unique (jobsData : List Json)
    (h : ((jobsData.filterMap asObj).map
      (fun fields => getD fields "id" Json.null)).Nodup) :
    ((normalizeJobs jobsData).map jobIdOf).Nodup := by
  rw [normalizeJobs_eq_filterMap, List.map_map]
  have : jobIdOf ∘ normJob = fun fields => getD fields "id" Json.null := by
    funext fields
    exact jobIdOf_normJob fields
  rw [this]
  exact h

/-- Claim C9 witness: two jobs with distinct ids "a" and "b" (and a
skipped non-dictionary element) produce a duplicate-free snapshot. -/
theorem c9_witness :
    ((normalizeJobs [Json.obj [("id", Json.str "a")], Json.null,
      Json.obj [("id", Json.str "b")]]).map jobIdOf).Nodup :=
  c9_unique_when_upstream_unique
    [Json.obj [("id", Json.str "a")], Json.null, Json.obj [("id", Json.str "b")]]
    (by decide)

/-- Claim C10: starting idle, two refresh triggers with the second
arriving while the first cycle is in flight issue exactly one fetch, and
in general a trigger arriving while busy leaves the coordinator state
unchanged — the trigger is dropped, not queued. -/
theorem c10_single_flight :
    coordRun ⟨false, 0⟩ [CoordEvent.tick, CoordEvent.tick] = ⟨true, 1⟩ ∧
    ∀ s : CoordState, s.busy = true → coordStep s CoordEvent.tick = s := by
  refine ⟨rfl, ?_⟩
  intro s h
  simp [coordStep, h]

/-- Claim C10 witness: a busy coordinator that has issued five fetches
drops an arriving trigger unchanged. -/
theorem c10_witness : coordStep ⟨true, 5⟩ CoordEvent.tick = ⟨true, 5⟩ :=
  c10_single_flight.2 ⟨true, 5⟩ rfl

end VeeamBR
